import Mathlib

/-
Verification development for the symbiants tick-simulation engine.
Shallow embedding of the grid/element data model, ant walking, digging,
chambering-pheromone lifecycle, death handling, schedule ordering and the
fast-forward time driver, translated from the Rust sources under src/.
Pieces of the program whose source files are not present (the ant
orientation type, the Initiative type, the deferred dig/drop command
application, the chamber_size setting, and the fixed-timestep driver) are
modelled from the specification document and marked as such in their doc
comments.
-/

namespace Symbiants

/-- Cell address on the bounded grid: integer (x, y); y grows downward
(larger y is deeper underground). -/
structure Position where
  x : Int
  y : Int
deriving DecidableEq, Repr

instance : Add Position where
  add p q := ⟨p.x + q.x, p.y + q.y⟩

theorem Position.add_def (p q : Position) : p + q = ⟨p.x + q.x, p.y + q.y⟩ := rfl

/-- The physical substance occupying a cell (src element model). -/
inductive Element
  | air
  | dirt
  | sand
  | food
deriving DecidableEq, Repr

/-- The nest region and its surface level, from
src/src/story/nest_simulation/nest/mod.rs. -/
structure Nest where
  surface_level : Int
deriving DecidableEq, Repr

/-- Nest.is_underground: position.y > surface_level. -/
def Nest.is_underground (n : Nest) (p : Position) : Bool :=
  n.surface_level < p.y

/-- Nest.is_aboveground: negation of is_underground. -/
def Nest.is_aboveground (n : Nest) (p : Position) : Bool :=
  !(n.is_underground p)

/-- The grid of a region: bounds plus the element occupying each cell.
The surface level is carried along so that aboveground checks used by
walking and pheromone removal can be answered (the WorldMap of the source
owns both the elements cache and the surface level). -/
structure Grid where
  width : Int
  height : Int
  surface_level : Int
  elementAt : Position → Element

/-- Grid.is_within_bounds from the grid contract. -/
def Grid.is_within_bounds (g : Grid) (p : Position) : Bool :=
  0 ≤ p.x && p.x < g.width && 0 ≤ p.y && p.y < g.height

/-- get(position) returns the occupying element, none if out of bounds. -/
def Grid.get_element (g : Grid) (p : Position) : Option Element :=
  if g.is_within_bounds p then some (g.elementAt p) else none

/-- is_element: the cell is in bounds and holds exactly the given element. -/
def Grid.is_element (g : Grid) (p : Position) (e : Element) : Bool :=
  match g.get_element p with
  | some e2 => e2 == e
  | none => false

/-- Aboveground test of the world map, delegating to the nest boundary. -/
def Grid.is_aboveground (g : Grid) (p : Position) : Bool :=
  (Nest.mk g.surface_level).is_aboveground p

/-- C10: every position is exactly one of aboveground or underground;
underground holds iff position.y is strictly greater than the surface
level; a position exactly at the surface level is aboveground; larger y is
deeper underground. -/
theorem c10_surface_boundary (n : Nest) (p : Position) :
    (n.is_underground p = true ↔ n.surface_level < p.y)
    ∧ (n.is_aboveground p = (!(n.is_underground p)))
    ∧ Xor' (n.is_aboveground p = true) (n.is_underground p = true)
    ∧ (p.y = n.surface_level → n.is_aboveground p = true)
    ∧ (∀ q : Position, n.is_underground p = true → p.y < q.y → n.is_underground q = true) := by
  refine ⟨?_, rfl, ?_, ?_, ?_⟩
  · simp [Nest.is_underground, decide_eq_true_eq]
  · by_cases h : n.surface_level < p.y
    · right
      constructor
      · simp [Nest.is_underground, h]
      · simp [Nest.is_aboveground, Nest.is_underground, h]
    · left
      constructor
      · simp [Nest.is_aboveground, Nest.is_underground, h]
      · simp [Nest.is_underground, h]
  · intro h
    simp [Nest.is_aboveground, Nest.is_underground, h]
  · intro q hp hq
    simp only [Nest.is_underground, decide_eq_true_eq] at hp ⊢
    omega

/-- Witness for c10_surface_boundary: at surface level 5, the position
(2, 5) sits exactly at the surface and counts as aboveground, while (2, 6)
is underground. -/
theorem c10_surface_boundary_witness :
    Nest.is_aboveground ⟨5⟩ ⟨2, 5⟩ = true ∧ Nest.is_underground ⟨5⟩ ⟨2, 6⟩ = true :=
  ⟨(c10_surface_boundary ⟨5⟩ ⟨2, 5⟩).2.2.2.1 rfl,
   ((c10_surface_boundary ⟨5⟩ ⟨2, 6⟩).1).mpr (by decide)⟩

/-- Modelled from the spec: the source file defining the ant orientation
type is not among the provided sources. Spec 4.2: orientation is one of 8
discrete facings (4 cardinal + 4 diagonal), each defining a forward and a
below-forward delta vector; rotate_forward and rotate_backward yield the
orientation 90 degrees from the current one (rotate_forward turning over
the front, towards the feet), turn_around yields the opposite facing.
North is up (negative y). -/
inductive AntOrientation
  | north
  | northeast
  | east
  | southeast
  | south
  | southwest
  | west
  | northwest
deriving DecidableEq, Repr

/-- Modelled from the spec: forward delta vector of a facing. -/
def AntOrientation.get_forward_delta : AntOrientation → Position
  | .north => ⟨0, -1⟩
  | .northeast => ⟨1, -1⟩
  | .east => ⟨1, 0⟩
  | .southeast => ⟨1, 1⟩
  | .south => ⟨0, 1⟩
  | .southwest => ⟨-1, 1⟩
  | .west => ⟨-1, 0⟩
  | .northwest => ⟨-1, -1⟩

/-- Modelled from the spec: 90 degree rotation over the front of the ant
(for an east-facing ant this turns towards south, where its feet are). -/
def AntOrientation.rotate_forward : AntOrientation → AntOrientation
  | .north => .east
  | .northeast => .southeast
  | .east => .south
  | .southeast => .southwest
  | .south => .west
  | .southwest => .northwest
  | .west => .north
  | .northwest => .northeast

/-- Modelled from the spec: 90 degree rotation towards the back. -/
def AntOrientation.rotate_backward : AntOrientation → AntOrientation
  | .north => .west
  | .northwest => .southwest
  | .west => .south
  | .southwest => .southeast
  | .south => .east
  | .southeast => .northeast
  | .east => .north
  | .northeast => .northwest

/-- Modelled from the spec: the opposite facing. -/
def AntOrientation.turn_around : AntOrientation → AntOrientation
  | .north => .south
  | .northeast => .southwest
  | .east => .west
  | .southeast => .northwest
  | .south => .north
  | .southwest => .northeast
  | .west => .east
  | .northwest => .southeast

/-- Modelled from the spec: ahead is the cell in the facing direction. -/
def AntOrientation.get_ahead_position (o : AntOrientation) (p : Position) : Position :=
  p + o.get_forward_delta

/-- Modelled from the spec: below is straight down regardless of facing. -/
def AntOrientation.get_below_position (_ : AntOrientation) (p : Position) : Position :=
  p + (⟨0, 1⟩ : Position)

/-- Modelled from the spec: above is straight up regardless of facing. -/
def AntOrientation.get_above_position (_ : AntOrientation) (p : Position) : Position :=
  p + (⟨0, -1⟩ : Position)

/-- Modelled from the spec: facing straight up. -/
def AntOrientation.is_facing_north (o : AntOrientation) : Bool :=
  o == .north

/-- Modelled from the spec: an ant is rightside up when its feet (the
rotate_forward direction) point straight down. -/
def AntOrientation.is_rightside_up (o : AntOrientation) : Bool :=
  o.rotate_forward == .south

/-- Modelled from the spec: an ant is upside down when its feet (the
rotate_forward direction) point straight up. -/
def AntOrientation.is_upside_down (o : AntOrientation) : Bool :=
  o.rotate_forward == .north

/-- Modelled from the spec: a horizontal facing has no vertical component. -/
def AntOrientation.is_horizontal (o : AntOrientation) : Bool :=
  o.get_forward_delta.y == 0

/-- Modelled from the spec: the list of all eight facings. -/
def AntOrientation.all_orientations : List AntOrientation :=
  [.north, .northeast, .east, .southeast, .south, .southwest, .west, .northwest]

/-- Worker or Queen role of an ant. -/
inductive AntRole
  | worker
  | queen
deriving DecidableEq, Repr

/-- Modelled from the spec: the Initiative type is not among the provided
sources. Spec 4.6: initiative gates every behavior system through can_move
and can_act and is decremented by one per consumed movement and,
independently, per consumed action; two unit budgets are used here. -/
structure Initiative where
  has_movement : Bool
  has_action : Bool
deriving DecidableEq, Repr

/-- Modelled from the spec: movement gate. -/
def Initiative.can_move (i : Initiative) : Bool :=
  i.has_movement

/-- Modelled from the spec: action gate. -/
def Initiative.can_act (i : Initiative) : Bool :=
  i.has_action

/-- Modelled from the spec: spend the movement unit of this tick. -/
def Initiative.consume_movement (i : Initiative) : Initiative :=
  { i with has_movement := false }

/-- Modelled from the spec: spend the action unit of this tick. -/
def Initiative.consume_action (i : Initiative) : Initiative :=
  { i with has_action := false }

/-- Pheromone kinds: Tunnel and Chamber. -/
inductive Pheromone
  | tunnel
  | chamber
deriving DecidableEq, Repr

/-- The agent: position, facing, carried item, initiative, role, nesting
target (an optional Nesting component whose position() is optional) and
the Chambering countdown tag (none when the tag is absent). -/
structure Ant where
  id : Nat
  position : Position
  orientation : AntOrientation
  role : AntRole
  inventory : Option Element
  initiative : Initiative
  nesting : Option (Option Position)
  chambering : Option Int
deriving DecidableEq, Repr

/-- A deferred dig command: the acting ant and the target cell. -/
structure DigCmd where
  antId : Nat
  digPosition : Position
deriving DecidableEq, Repr

/-- The random draws consumed by one run of ants_walk for one ant: the
result of rng.chance(random_turn) and the value of a uniform index draw
rng.usize(0..len), modelled as an arbitrary natural taken modulo len. -/
structure WalkRng where
  is_turning_randomly : Bool
  pick : Nat
deriving DecidableEq, Repr

/-- is_valid_location from src/src/ant/walk.rs: air at the body of the ant
and a non-air element beneath its feet for the candidate orientation. -/
def is_valid_location (g : Grid) (orientation : AntOrientation) (position : Position) : Bool :=
  match g.get_element position with
  | none => false
  | some element =>
    if element != Element.air then false
    else
      match g.get_element (position + orientation.rotate_forward.get_forward_delta) with
      | none => false
      | some footElement => footElement != Element.air

/-- get_turned_orientation from src/src/ant/walk.rs: try rotate_backward,
else turn_around, else a uniformly chosen valid other orientation, else a
uniformly chosen orientation among all eight. -/
def get_turned_orientation (g : Grid) (orientation : AntOrientation) (position : Position)
    (pick : Nat) : AntOrientation :=
  let back := orientation.rotate_backward
  if is_valid_location g back position then back
  else
    let opposite := orientation.turn_around
    if is_valid_location g opposite position then opposite
    else
      let validOrientations := AntOrientation.all_orientations.filter
        (fun inner => inner ≠ orientation && is_valid_location g inner position)
      if validOrientations.isEmpty then
        AntOrientation.all_orientations.getD (pick % AntOrientation.all_orientations.length) orientation
      else
        validOrientations.getD (pick % validOrientations.length) orientation

/-- The cell under the feet of the ant (diagonally forward and down the
body): position + rotate_forward forward delta. -/
def under_feet_position (a : Ant) : Position :=
  a.position + a.orientation.rotate_forward.get_forward_delta

/-- The straight-ahead cell. -/
def walk_forward_position (a : Ant) : Position :=
  a.position + a.orientation.get_forward_delta

/-- has_air_under_feet of ants_walk. -/
def has_air_under_feet (g : Grid) (a : Ant) : Bool :=
  g.is_element (under_feet_position a) Element.air

/-- has_air_ahead of ants_walk: the ahead cell exists and holds Air. -/
def has_air_ahead (g : Grid) (a : Ant) : Bool :=
  match g.get_element (walk_forward_position a) with
  | some element => element == Element.air
  | none => false

/-- The queen bias of ants_walk: queen, aboveground, empty inventory,
horizontal, known nest target, and stepping ahead would increase the
Manhattan distance to the nest. -/
def is_queen_turning_towards_nest (g : Grid) (a : Ant) : Bool :=
  a.role == AntRole.queen
  && g.is_aboveground a.position
  && a.inventory == none
  && a.orientation.is_horizontal
  && (match a.nesting with
      | some (some nestPosition) =>
        let distanceToNest :=
          (a.position.x - nestPosition.x).natAbs + (a.position.y - nestPosition.y).natAbs
        let distanceToNestForward :=
          ((walk_forward_position a).x - nestPosition.x).natAbs
            + ((walk_forward_position a).y - nestPosition.y).natAbs
        decide (distanceToNest < distanceToNestForward)
      | _ => false)

/-- The orientation the feet point at when walking past the ahead cell. -/
def foot_orientation (a : Ant) : AntOrientation :=
  a.orientation.rotate_forward

/-- The cell diagonally ahead, beneath the ahead cell relative to the body:
forward position + foot orientation forward delta. -/
def foot_position (a : Ant) : Position :=
  walk_forward_position a + (foot_orientation a).get_forward_delta

/-- ants_walk from src/src/ant/walk.rs for one ant, returning the updated
ant and the number of movement units consumed. Dead and Birthing ants are
excluded by the query and never reach this function. -/
def ants_walk (g : Grid) (rng : WalkRng) (a : Ant) : Ant × Nat :=
  if !a.initiative.can_move then (a, 0)
  else if has_air_under_feet g a
      || !has_air_ahead g a
      || rng.is_turning_randomly
      || is_queen_turning_towards_nest g a then
    ({ a with
        orientation := get_turned_orientation g a.orientation a.position rng.pick,
        initiative := a.initiative.consume_movement }, 1)
  else
    match g.get_element (foot_position a) with
    | none => (a, 0)
    | some footElement =>
      if footElement == Element.air then
        ({ a with
            position := foot_position a,
            orientation := foot_orientation a,
            initiative := a.initiative.consume_movement }, 1)
      else
        ({ a with
            position := walk_forward_position a,
            initiative := a.initiative.consume_movement }, 1)

/-- World for the walking scenario: a 4 x 4 grid holding Air everywhere
except a single Dirt block at (1, 2). -/
def c1Grid : Grid :=
  { width := 4, height := 4, surface_level := 0,
    elementAt := fun p => if p = ⟨1, 2⟩ then Element.dirt else Element.air }

/-- A worker on top of the Dirt block at (1, 2), facing east, with full
initiative and empty inventory. -/
def c1Ant : Ant :=
  { id := 0, position := ⟨1, 1⟩, orientation := .east, role := .worker,
    inventory := none, initiative := ⟨true, true⟩, nesting := none, chambering := none }

/-- C1 counterexample: an agent with stable footing, Air ahead, no random
turn and no queen bias, whose foot cell beneath the ahead cell is Air,
does NOT remain on its current cell: ants_walk moves it into the foot cell
(2, 2) and rotates it into the perpendicular-forward orientation, so the
claim that it remains on the current cell is false at this input. -/
theorem c1_position_changes_on_climb :
    has_air_under_feet c1Grid c1Ant = false
    ∧ has_air_ahead c1Grid c1Ant = true
    ∧ c1Grid.get_element (foot_position c1Ant) = some Element.air
    ∧ (ants_walk c1Grid ⟨false, 0⟩ c1Ant).1.position = ⟨2, 2⟩
    ∧ (ants_walk c1Grid ⟨false, 0⟩ c1Ant).1.orientation = AntOrientation.south
    ∧ (ants_walk c1Grid ⟨false, 0⟩ c1Ant).1.position ≠ c1Ant.position := by
  decide

/-- C1 (amended): for an agent with available move-initiative that is not
turning (stable footing, Air ahead, no random turn, no queen bias): if the
foot cell beneath the ahead cell holds a non-Air element it steps into the
ahead cell; if the foot cell holds Air it instead rotates into the
perpendicular-forward orientation and moves into that foot cell, keeping
its feet on the block it was standing on, rather than stepping straight
ahead over empty space; if the foot cell is out of bounds it does not move
at all. -/
theorem c1_walk_step_or_climb (g : Grid) (rng : WalkRng) (a : Ant)
    (hmove : a.initiative.can_move = true)
    (hfoot : has_air_under_feet g a = false)
    (hahead : has_air_ahead g a = true)
    (hrand : rng.is_turning_randomly = false)
    (hqueen : is_queen_turning_towards_nest g a = false) :
    (g.get_element (foot_position a) = some Element.air →
      (ants_walk g rng a).1.position = foot_position a
      ∧ (ants_walk g rng a).1.orientation = foot_orientation a)
    ∧ (∀ e : Element, g.get_element (foot_position a) = some e → e ≠ Element.air →
      (ants_walk g rng a).1.position = walk_forward_position a
      ∧ (ants_walk g rng a).1.orientation = a.orientation)
    ∧ (g.get_element (foot_position a) = none → (ants_walk g rng a).1 = a) := by
  refine ⟨?_, ?_, ?_⟩
  · intro h
    simp [ants_walk, hmove, hfoot, hahead, hrand, hqueen, h]
  · intro e he hne
    simp [ants_walk, hmove, hfoot, hahead, hrand, hqueen, he, hne]
  · intro h
    simp [ants_walk, hmove, hfoot, hahead, hrand, hqueen, h]

/-- Witness for c1_walk_step_or_climb at the concrete climbing scenario. -/
theorem c1_walk_step_or_climb_witness :
    (ants_walk c1Grid ⟨false, 0⟩ c1Ant).1.position = foot_position c1Ant
    ∧ (ants_walk c1Grid ⟨false, 0⟩ c1Ant).1.orientation = foot_orientation c1Ant :=
  (c1_walk_step_or_climb c1Grid ⟨false, 0⟩ c1Ant (by decide) (by decide) (by decide)
    (by decide) (by decide)).1 (by decide)

/-- The candidate cells of ants_dig: ahead, below and above, filtered to
in-bounds (src/simulation/src/crater_simulation/ant/dig.rs). -/
def dig_candidate_positions (g : Grid) (a : Ant) : List Position :=
  [a.orientation.get_ahead_position a.position,
   a.orientation.get_below_position a.position,
   a.orientation.get_above_position a.position].filter
    (fun p => g.is_within_bounds p)

/-- The Food-bearing candidates among the in-bounds cells. -/
def dig_food_positions (g : Grid) (a : Ant) : List Position :=
  (dig_candidate_positions g a).filter (fun p => g.elementAt p == Element.food)

/-- ants_dig from src/simulation/src/crater_simulation/ant/dig.rs over the
list of ants the query yields, in iteration order; picks supplies the
uniform draws of rng.sample, one per sampling ant. The third branch
translates the literal `return` of the source: when an eligible ant has no
Food-bearing candidate, the whole system returns, leaving every remaining
ant unprocessed and issuing no further commands this tick. -/
def ants_dig (g : Grid) : List Ant → List Nat → List Ant × List DigCmd
  | [], _ => ([], [])
  | a :: rest, picks =>
    if !a.initiative.can_act then
      (a :: (ants_dig g rest picks).1, (ants_dig g rest picks).2)
    else if a.inventory != none then
      (a :: (ants_dig g rest picks).1, (ants_dig g rest picks).2)
    else if (dig_food_positions g a).isEmpty then
      (a :: rest, [])
    else
      ({ a with orientation := a.orientation.turn_around } :: (ants_dig g rest picks.tail).1,
       ⟨a.id, (dig_food_positions g a).getD
          (picks.headD 0 % (dig_food_positions g a).length) a.position⟩
         :: (ants_dig g rest picks.tail).2)

/-- Crater world for the digging scenario: 5 x 5, Food at (3, 1), Air
elsewhere. -/
def c2Grid : Grid :=
  { width := 5, height := 5, surface_level := 0,
    elementAt := fun p => if p = ⟨3, 1⟩ then Element.food else Element.air }

/-- An eligible ant (can act, empty inventory) with no Food among its
ahead, below and above cells. -/
def c2AntNoFood : Ant :=
  { id := 0, position := ⟨1, 3⟩, orientation := .east, role := .worker,
    inventory := none, initiative := ⟨true, true⟩, nesting := none, chambering := none }

/-- An eligible ant whose ahead cell (3, 1) holds Food. -/
def c2AntFood : Ant :=
  { id := 1, position := ⟨2, 1⟩, orientation := .east, role := .worker,
    inventory := none, initiative := ⟨true, true⟩, nesting := none, chambering := none }

/-- C2 evaluation at the failing input: alone, the Food-adjacent ant digs
the Food and reverses its orientation; but when it is preceded in
iteration order by an eligible ant with no Food-bearing candidate, the
early `return` aborts the whole system and the Food-adjacent ant issues no
dig at all, contradicting the per-agent reading of the claim. -/
theorem c2_dig_early_return_eval :
    (ants_dig c2Grid [c2AntFood] [0]).2 = [⟨1, ⟨3, 1⟩⟩]
    ∧ (ants_dig c2Grid [c2AntFood] [0]).1
        = [{ c2AntFood with orientation := AntOrientation.west }]
    ∧ c2AntNoFood.initiative.can_act = true
    ∧ c2AntNoFood.inventory = none
    ∧ dig_food_positions c2Grid c2AntNoFood = []
    ∧ (ants_dig c2Grid [c2AntNoFood, c2AntFood] [0]).2 = []
    ∧ (ants_dig c2Grid [c2AntNoFood, c2AntFood] [0]).1 = [c2AntNoFood, c2AntFood] := by
  decide

/-- Every dig command emitted by ants_dig belongs to a listed ant whose
inventory is empty (the inventory guard is checked before sampling). -/
theorem ants_dig_commands_from_empty_inventory (g : Grid) :
    ∀ (ants : List Ant) (picks : List Nat) (c : DigCmd),
      c ∈ (ants_dig g ants picks).2 → ∃ a ∈ ants, a.id = c.antId ∧ a.inventory = none := by
  intro ants
  induction ants with
  | nil =>
    intro picks c hc
    simp [ants_dig] at hc
  | cons a rest ih =>
    intro picks c hc
    unfold ants_dig at hc
    by_cases h1 : (!a.initiative.can_act) = true
    · rw [if_pos h1] at hc
      obtain ⟨b, hb, hbc⟩ := ih picks c hc
      exact ⟨b, List.mem_cons_of_mem a hb, hbc⟩
    · rw [if_neg h1] at hc
      by_cases h2 : (a.inventory != none) = true
      · rw [if_pos h2] at hc
        obtain ⟨b, hb, hbc⟩ := ih picks c hc
        exact ⟨b, List.mem_cons_of_mem a hb, hbc⟩
      · rw [if_neg h2] at hc
        by_cases h3 : (dig_food_positions g a).isEmpty = true
        · rw [if_pos h3] at hc
          simp at hc
        · rw [if_neg h3] at hc
          simp only [List.mem_cons] at hc
          rcases hc with hc | hc
          · refine ⟨a, List.mem_cons_self a rest, ?_, ?_⟩
            · rw [hc]
            · simpa using h2
          · obtain ⟨b, hb, hbc⟩ := ih picks.tail c hc
            exact ⟨b, List.mem_cons_of_mem a hb, hbc⟩

/-- try_dig from src/src/ant/chambering.rs: false when the target cell is
out of bounds or holds Air; otherwise a dig command is issued for it. -/
def try_dig (g : Grid) (digPosition : Position) : Bool :=
  if !g.is_within_bounds digPosition then false
  else g.elementAt digPosition != Element.air

/-- ants_chamber_pheromone_act from src/src/ant/chambering.rs for one ant;
the query filters With Chambering, so untagged ants never run the body.
The ahead dig is gated on not facing north, the above dig on not being
rightside up; a successful branch consumes the action and stops. -/
def ants_chamber_pheromone_act (g : Grid) (a : Ant) : Ant × List DigCmd :=
  if a.chambering == none then (a, [])
  else if !a.initiative.can_act then (a, [])
  else if a.inventory != none then (a, [])
  else if !a.orientation.is_facing_north
      && try_dig g (a.orientation.get_ahead_position a.position) then
    ({ a with initiative := a.initiative.consume_action },
     [⟨a.id, a.orientation.get_ahead_position a.position⟩])
  else if !a.orientation.is_rightside_up
      && try_dig g (a.orientation.get_above_position a.position) then
    ({ a with initiative := a.initiative.consume_action },
     [⟨a.id, a.orientation.get_above_position a.position⟩])
  else (a, [])

/-- Nest world for the chambering scenarios: 5 x 5, Dirt at depth y <= 1,
Air below the two top rows. -/
def c6Grid : Grid :=
  { width := 5, height := 5, surface_level := 0,
    elementAt := fun p => if p.y ≤ 1 then Element.dirt else Element.air }

/-- A Chambering ant facing west at (2, 2): upside down (feet pointing
straight up), Air ahead at (1, 2), Dirt above at (2, 1). -/
def c6Ant : Ant :=
  { id := 7, position := ⟨2, 2⟩, orientation := .west, role := .worker,
    inventory := none, initiative := ⟨true, true⟩, nesting := none, chambering := some 2 }

/-- C6 counterexample: an upside-down Chambering agent (not facing north,
Air ahead) digs the cell above, so the claim that the above dig happens
only when the agent is not upside down is false; the gate in the code is
not being rightside up. -/
theorem c6_upside_down_digs_above :
    AntOrientation.is_upside_down c6Ant.orientation = true
    ∧ AntOrientation.is_rightside_up c6Ant.orientation = false
    ∧ c6Ant.initiative.can_act = true
    ∧ c6Ant.inventory = none
    ∧ try_dig c6Grid (c6Ant.orientation.get_ahead_position c6Ant.position) = false
    ∧ (ants_chamber_pheromone_act c6Grid c6Ant).2
        = [⟨7, c6Ant.orientation.get_above_position c6Ant.position⟩]
    ∧ (ants_chamber_pheromone_act c6Grid c6Ant).1.initiative.can_act = false := by
  decide

/-- C6 (amended): a Chambering agent with action-initiative and empty
inventory attempts the ahead dig only when not facing north, and the above
dig only when not rightside up; a successful attempt consumes exactly one
action and evaluates no further branch this tick; an attempt on an
out-of-bounds or Air cell issues no command, and when both attempts fail
nothing is consumed. -/
theorem c6_chamber_act_gates (g : Grid) (a : Ant)
    (htag : a.chambering ≠ none)
    (hact : a.initiative.can_act = true)
    (hinv : a.inventory = none) :
    (a.orientation.is_facing_north = false →
      try_dig g (a.orientation.get_ahead_position a.position) = true →
      ants_chamber_pheromone_act g a
        = ({ a with initiative := a.initiative.consume_action },
           [⟨a.id, a.orientation.get_ahead_position a.position⟩]))
    ∧ ((a.orientation.is_facing_north = true
        ∨ try_dig g (a.orientation.get_ahead_position a.position) = false) →
      a.orientation.is_rightside_up = false →
      try_dig g (a.orientation.get_above_position a.position) = true →
      ants_chamber_pheromone_act g a
        = ({ a with initiative := a.initiative.consume_action },
           [⟨a.id, a.orientation.get_above_position a.position⟩]))
    ∧ ((a.orientation.is_facing_north = true
        ∨ try_dig g (a.orientation.get_ahead_position a.position) = false) →
      (a.orientation.is_rightside_up = true
        ∨ try_dig g (a.orientation.get_above_position a.position) = false) →
      ants_chamber_pheromone_act g a = (a, []))
    ∧ (∀ p : Position,
        g.is_within_bounds p = false ∨ g.elementAt p = Element.air → try_dig g p = false) := by
  have htag2 : (a.chambering == none) = false := by
    simpa using htag
  refine ⟨?_, ?_, ?_, ?_⟩
  · intro hn hd
    simp [ants_chamber_pheromone_act, htag2, hact, hinv, hn, hd]
  · intro hfirst hr hd
    rcases hfirst with hn | hno
    · simp [ants_chamber_pheromone_act, htag2, hact, hinv, hn, hr, hd]
    · simp [ants_chamber_pheromone_act, htag2, hact, hinv, hno, hr, hd]
  · intro hfirst hsecond
    rcases hfirst with hn | hno <;> rcases hsecond with hr | hrno <;>
      simp [ants_chamber_pheromone_act, htag2, hact, hinv, *]
  · intro p hp
    rcases hp with hp | hp <;> simp [try_dig, hp]

/-- Witness for c6_chamber_act_gates: a Chambering ant at (3, 1) facing
east digs the Dirt ahead at (4, 1) and its action is consumed. -/
theorem c6_chamber_act_gates_witness :
    ants_chamber_pheromone_act c6Grid
        { id := 8, position := ⟨3, 1⟩, orientation := .east, role := .worker,
          inventory := none, initiative := ⟨true, true⟩, nesting := none,
          chambering := some 1 }
      = ({ id := 8, position := ⟨3, 1⟩, orientation := .east, role := .worker,
           inventory := none, initiative := ⟨true, false⟩, nesting := none,
           chambering := some 1 },
         [⟨8, ⟨4, 1⟩⟩]) :=
  (c6_chamber_act_gates c6Grid
      { id := 8, position := ⟨3, 1⟩, orientation := .east, role := .worker,
        inventory := none, initiative := ⟨true, true⟩, nesting := none,
        chambering := some 1 }
      (by decide) (by decide) (by decide)).1 (by decide) (by decide)

/-- C7: an agent with a non-empty inventory never initiates a dig: every
command the opportunistic dig system emits belongs to an agent with empty
inventory, and the pheromone-directed dig system is a no-op for any agent
with a non-empty inventory, whatever the world and random draws. -/
theorem c7_nonempty_inventory_never_digs :
    (∀ (g : Grid) (ants : List Ant) (picks : List Nat) (c : DigCmd),
      c ∈ (ants_dig g ants picks).2 → ∃ a ∈ ants, a.id = c.antId ∧ a.inventory = none)
    ∧ (∀ (g : Grid) (a : Ant), a.inventory ≠ none →
        ants_chamber_pheromone_act g a = (a, [])) := by
  constructor
  · intro g
    exact ants_dig_commands_from_empty_inventory g
  · intro g a h
    have h2 : (a.inventory != none) = true := by
      simpa using h
    unfold ants_chamber_pheromone_act
    by_cases h0 : (a.chambering == none) = true
    · rw [if_pos h0]
    · rw [if_neg h0]
      by_cases h1 : (!a.initiative.can_act) = true
      · rw [if_pos h1]
      · rw [if_neg h1, if_pos h2]

/-- Witness for c7_nonempty_inventory_never_digs: the command emitted for
the lone Food-adjacent ant comes from an empty-inventory ant, and a
Chambering ant carrying Food is skipped by the pheromone dig system. -/
theorem c7_nonempty_inventory_never_digs_witness :
    (∃ a ∈ [c2AntFood], a.id = 1 ∧ a.inventory = none)
    ∧ ants_chamber_pheromone_act c6Grid { c6Ant with id := 9, inventory := some Element.food }
        = ({ c6Ant with id := 9, inventory := some Element.food }, []) :=
  ⟨c7_nonempty_inventory_never_digs.1 c2Grid [c2AntFood] [0] ⟨1, ⟨3, 1⟩⟩ (by decide),
   c7_nonempty_inventory_never_digs.2 c6Grid
     { c6Ant with id := 9, inventory := some Element.food } (by decide)⟩

/-- The per-tick inputs of the chambering pipeline for one ant: whether
its Position changed this tick, whether its AntInventory changed, the
pheromone at the cell it now occupies, and that cell. -/
structure ChamberTickInput where
  moved : Bool
  inventoryChanged : Bool
  pheromoneAtPosition : Option Pheromone
  newPosition : Position
deriving DecidableEq, Repr

/-- Modelled from the spec: chamber_size is read from the settings; the
provided settings.rs predates the field. Spec 4.4: fixed initial
magnitude, 3 for Chamber. -/
def chamber_size : Int := 3

/-- ants_fade_chamber_pheromone from src/src/ant/chambering.rs: whenever
an ant takes a step (Changed Position) it loses 1 Chambering. -/
def ants_fade_chamber_pheromone (inp : ChamberTickInput) (a : Ant) : Ant :=
  if inp.moved then
    match a.chambering with
    | some c => { a with chambering := some (c - 1) }
    | none => a
  else a

/-- ants_add_chamber_pheromone from src/src/ant/chambering.rs: an ant
whose Position changed, with empty inventory, standing on a Chamber
pheromone, acquires Chambering(chamber_size). -/
def ants_add_chamber_pheromone (inp : ChamberTickInput) (a : Ant) : Ant :=
  if inp.moved && a.inventory == none
      && inp.pheromoneAtPosition == some Pheromone.chamber then
    { a with chambering := some chamber_size }
  else a

/-- ants_remove_chamber_pheromone from src/src/ant/chambering.rs: for a
tagged ant whose Position or AntInventory changed, remove the tag when the
inventory is non-empty, else when the ant is aboveground, else when the
countdown is zero or below. -/
def ants_remove_chamber_pheromone (g : Grid) (inp : ChamberTickInput) (a : Ant) : Ant :=
  if (inp.moved || inp.inventoryChanged) && a.chambering != none then
    if a.inventory != none then { a with chambering := none }
    else if g.is_aboveground a.position then { a with chambering := none }
    else
      match a.chambering with
      | some c => if c ≤ 0 then { a with chambering := none } else a
      | none => a
  else a

/-- One tick of the chambering pipeline in the schedule order of
NestSimulationPlugin (movement earlier in the tick applies the new
position instantly; then fade, add, remove run in chain order). -/
def chamber_pheromone_tick (g : Grid) (inp : ChamberTickInput) (a : Ant) : Ant :=
  ants_remove_chamber_pheromone g inp
    (ants_add_chamber_pheromone inp
      (ants_fade_chamber_pheromone inp { a with position := inp.newPosition }))

/-- One moving tick of the chambering pipeline for a tagged ant with empty
inventory, no Chamber pheromone underfoot and an underground destination:
the countdown fades by one, and the tag is removed exactly when the faded
countdown is zero or below. -/
theorem chamber_tick_step (g : Grid) (inp : ChamberTickInput) (b : Ant) (c : Int)
    (hb : b.chambering = some c) (hbi : b.inventory = none)
    (hmv : inp.moved = true)
    (hp : inp.pheromoneAtPosition ≠ some Pheromone.chamber)
    (hug : g.is_aboveground inp.newPosition = false) :
    (chamber_pheromone_tick g inp b).chambering
        = (if c - 1 ≤ 0 then none else some (c - 1))
    ∧ (chamber_pheromone_tick g inp b).inventory = b.inventory
    ∧ (chamber_pheromone_tick g inp b).position = inp.newPosition := by
  have hp2 : (inp.pheromoneAtPosition == some Pheromone.chamber) = false := by
    simpa using hp
  by_cases hc : c - 1 ≤ 0
  · simp [chamber_pheromone_tick, ants_fade_chamber_pheromone, ants_add_chamber_pheromone,
      ants_remove_chamber_pheromone, hb, hbi, hmv, hp2, hug, hc]
  · simp [chamber_pheromone_tick, ants_fade_chamber_pheromone, ants_add_chamber_pheromone,
      ants_remove_chamber_pheromone, hb, hbi, hmv, hp2, hug, hc]

/-- C5: an agent tagged Chambering(3) that makes three position-changing
steps, never acquiring a non-empty inventory, never standing on a Chamber
pheromone again and never surfacing, keeps the tag after the second step,
loses it after the third, and removal is triggered exactly by the
disjunction: inventory non-empty, aboveground, or countdown zero or below. -/
theorem c5_chambering_removed_after_third_step (g : Grid) (a : Ant)
    (i1 i2 i3 : ChamberTickInput)
    (h0 : a.chambering = some 3) (hinv : a.inventory = none)
    (hm1 : i1.moved = true) (hm2 : i2.moved = true) (hm3 : i3.moved = true)
    (hp1 : i1.pheromoneAtPosition ≠ some Pheromone.chamber)
    (hp2 : i2.pheromoneAtPosition ≠ some Pheromone.chamber)
    (hp3 : i3.pheromoneAtPosition ≠ some Pheromone.chamber)
    (hu1 : g.is_aboveground i1.newPosition = false)
    (hu2 : g.is_aboveground i2.newPosition = false)
    (hu3 : g.is_aboveground i3.newPosition = false) :
    (chamber_pheromone_tick g i1 a).chambering = some 2
    ∧ (chamber_pheromone_tick g i2 (chamber_pheromone_tick g i1 a)).chambering = some 1
    ∧ (chamber_pheromone_tick g i3 (chamber_pheromone_tick g i2
        (chamber_pheromone_tick g i1 a))).chambering = none
    ∧ (∀ (inp : ChamberTickInput) (b : Ant) (c : Int),
        b.chambering = some c → b.inventory = none → inp.moved = true →
        inp.pheromoneAtPosition ≠ some Pheromone.chamber →
        ((chamber_pheromone_tick g inp b).chambering = none
          ↔ (g.is_aboveground inp.newPosition = true ∨ c - 1 ≤ 0)))
    ∧ (∀ (inp : ChamberTickInput) (b : Ant),
        b.chambering ≠ none → b.inventory ≠ none →
        (inp.moved = true ∨ inp.inventoryChanged = true) →
        (chamber_pheromone_tick g inp b).chambering = none) := by
  obtain ⟨hA1, hA2, hA3⟩ := chamber_tick_step g i1 a 3 h0 hinv hm1 hp1 hu1
  norm_num at hA1
  have hinv1 : (chamber_pheromone_tick g i1 a).inventory = none := by
    rw [hA2, hinv]
  obtain ⟨hB1, hB2, hB3⟩ :=
    chamber_tick_step g i2 (chamber_pheromone_tick g i1 a) 2 hA1 hinv1 hm2 hp2 hu2
  norm_num at hB1
  have hinv2 : (chamber_pheromone_tick g i2 (chamber_pheromone_tick g i1 a)).inventory = none := by
    rw [hB2, hinv1]
  obtain ⟨hC1, hC2, hC3⟩ :=
    chamber_tick_step g i3 (chamber_pheromone_tick g i2 (chamber_pheromone_tick g i1 a)) 1
      hB1 hinv2 hm3 hp3 hu3
  norm_num at hC1
  refine ⟨hA1, hB1, hC1, ?_, ?_⟩
  · intro inp b c hb hbi hmv hp
    have hpb : (inp.pheromoneAtPosition == some Pheromone.chamber) = false := by
      simpa using hp
    by_cases hug : g.is_aboveground inp.newPosition = true
    · simp [chamber_pheromone_tick, ants_fade_chamber_pheromone, ants_add_chamber_pheromone,
        ants_remove_chamber_pheromone, hb, hbi, hmv, hpb, hug]
    · have hug2 : g.is_aboveground inp.newPosition = false := by
        simpa using hug
      by_cases hc : c - 1 ≤ 0 <;>
        simp [chamber_pheromone_tick, ants_fade_chamber_pheromone, ants_add_chamber_pheromone,
          ants_remove_chamber_pheromone, hb, hbi, hmv, hpb, hug2, hc]
  · intro inp b htag hbinv hchg
    obtain ⟨c, hc⟩ := Option.ne_none_iff_exists'.mp htag
    have hbinv2 : (b.inventory == none) = false := by
      simpa using hbinv
    rcases hchg with hmv | hic
    · simp [chamber_pheromone_tick, ants_fade_chamber_pheromone, ants_add_chamber_pheromone,
        ants_remove_chamber_pheromone, hc, hbinv2, hmv, hbinv]
    · by_cases hmv : inp.moved = true
      · simp [chamber_pheromone_tick, ants_fade_chamber_pheromone, ants_add_chamber_pheromone,
          ants_remove_chamber_pheromone, hc, hbinv2, hmv, hbinv]
      · have hmv2 : inp.moved = false := by
          simpa using hmv
        simp [chamber_pheromone_tick, ants_fade_chamber_pheromone, ants_add_chamber_pheromone,
          ants_remove_chamber_pheromone, hc, hbinv2, hmv2, hic, hbinv]

/-- Witness for c5_chambering_removed_after_third_step: three underground
steps of a Chambering(3) worker in the chamber world, with no pheromone
underfoot; the tag survives the second step and is gone after the third. -/
theorem c5_chambering_removed_after_third_step_witness :
    (chamber_pheromone_tick c6Grid ⟨true, false, none, ⟨3, 2⟩⟩
        (chamber_pheromone_tick c6Grid ⟨true, false, none, ⟨2, 3⟩⟩
          { c2AntFood with id := 11, chambering := some 3 })).chambering = some 1
    ∧ (chamber_pheromone_tick c6Grid ⟨true, false, none, ⟨3, 3⟩⟩
        (chamber_pheromone_tick c6Grid ⟨true, false, none, ⟨3, 2⟩⟩
          (chamber_pheromone_tick c6Grid ⟨true, false, none, ⟨2, 3⟩⟩
            { c2AntFood with id := 11, chambering := some 3 }))).chambering = none := by
  have h := c5_chambering_removed_after_third_step c6Grid
    { c2AntFood with id := 11, chambering := some 3 }
    ⟨true, false, none, ⟨2, 3⟩⟩ ⟨true, false, none, ⟨3, 2⟩⟩ ⟨true, false, none, ⟨3, 3⟩⟩
    (by decide) (by decide) (by decide) (by decide) (by decide)
    (by decide) (by decide) (by decide) (by decide) (by decide) (by decide)
  exact ⟨h.2.1, h.2.2.1⟩

/-- Labels for the systems of the per-tick schedules, named as in the
source; apply_deferred barrier points carry no simulation logic of their
own and are not listed. -/
inductive SystemLabel
  | process_external_event
  | denormalize_element
  | gravity_set_stability
  | gravity_elements
  | gravity_ants
  | gravity_mark_stable
  | gravity_mark_unstable
  | ants_stabilize_footing_movement
  | ants_digestion
  | ants_hunger_tick
  | ants_hunger_act
  | ants_regurgitate
  | ants_birthing
  | ants_sleep
  | ants_wake
  | ants_nesting_start
  | ants_nesting_movement
  | ants_nesting_action
  | ants_nest_expansion
  | pheromone_duration_tick
  | ants_fade_tunnel_pheromone
  | ants_tunnel_pheromone_move
  | ants_add_tunnel_pheromone
  | ants_remove_tunnel_pheromone
  | ants_tunnel_pheromone_act
  | ants_fade_chamber_pheromone
  | ants_add_chamber_pheromone
  | ants_remove_chamber_pheromone
  | ants_chamber_pheromone_act
  | ants_walk
  | ants_dig
  | ants_drop
  | on_ants_add_dead
  | ants_initiative
  | check_story_over
  | update_story_elapsed_ticks
  | gravity_crush
  | gravity_stability
  | ants_hunger
  | ants_act
deriving DecidableEq, Repr

/-- The SimulationUpdate schedule of NestSimulationPlugin::build
(src/src/story/nest_simulation/mod.rs), flattened in chain order. -/
def nest_simulation_schedule : List SystemLabel :=
  [.process_external_event, .denormalize_element,
   .gravity_set_stability, .gravity_elements, .gravity_ants,
   .gravity_mark_stable, .gravity_mark_unstable,
   .ants_stabilize_footing_movement,
   .ants_digestion, .ants_hunger_tick, .ants_hunger_act, .ants_regurgitate,
   .ants_birthing, .ants_sleep, .ants_wake,
   .ants_nesting_start, .ants_nesting_movement, .ants_nesting_action,
   .ants_nest_expansion, .pheromone_duration_tick,
   .ants_fade_tunnel_pheromone, .ants_tunnel_pheromone_move,
   .ants_add_tunnel_pheromone, .ants_remove_tunnel_pheromone, .ants_tunnel_pheromone_act,
   .ants_fade_chamber_pheromone, .ants_add_chamber_pheromone,
   .ants_remove_chamber_pheromone, .ants_chamber_pheromone_act,
   .ants_walk, .ants_dig, .ants_drop,
   .on_ants_add_dead, .ants_initiative,
   .check_story_over, .update_story_elapsed_ticks]

/-- The FixedUpdate schedule of SimulationPlugin::build
(src/src/simulation.rs), simulation systems in chain order. -/
def fixed_update_schedule : List SystemLabel :=
  [.gravity_elements, .gravity_ants, .gravity_crush, .gravity_stability,
   .ants_walk, .ants_hunger, .ants_birthing, .ants_act, .ants_initiative]

/-- C3 counterexample: in the NestSimulationPlugin schedule, the movement
system ants_walk runs after the hunger systems, after birthing and after
both pheromone pipelines, so the claimed total order with movement second
(gravity, movement, hunger, birthing, pheromone, digging, reset) does not
hold for this schedule. -/
theorem c3_movement_runs_after_pheromone :
    nest_simulation_schedule.indexOf .ants_hunger_act
        < nest_simulation_schedule.indexOf .ants_walk
    ∧ nest_simulation_schedule.indexOf .ants_birthing
        < nest_simulation_schedule.indexOf .ants_walk
    ∧ nest_simulation_schedule.indexOf .ants_chamber_pheromone_act
        < nest_simulation_schedule.indexOf .ants_walk
    ∧ SystemLabel.ants_walk ∈ nest_simulation_schedule
    ∧ SystemLabel.ants_hunger_act ∈ nest_simulation_schedule := by
  decide

/-- C3 (amended): within one tick the systems run in a fixed total order;
in the nest schedule gravity precedes hunger, hunger precedes birthing,
birthing precedes both pheromone pipelines, the pheromone pipelines
precede walking, walking directly precedes digging and dropping, and the
initiative reset comes after all of them; movement is split, with the
footing-stabilization movement between gravity and hunger and the main
walk directly before digging. In the older FixedUpdate schedule the order
is gravity, walk, hunger, birthing, act, initiative reset. -/
theorem c3_schedule_order :
    (nest_simulation_schedule.indexOf .gravity_elements
        < nest_simulation_schedule.indexOf .ants_stabilize_footing_movement
      ∧ nest_simulation_schedule.indexOf .ants_stabilize_footing_movement
        < nest_simulation_schedule.indexOf .ants_hunger_act
      ∧ nest_simulation_schedule.indexOf .ants_hunger_act
        < nest_simulation_schedule.indexOf .ants_birthing
      ∧ nest_simulation_schedule.indexOf .ants_birthing
        < nest_simulation_schedule.indexOf .ants_fade_tunnel_pheromone
      ∧ nest_simulation_schedule.indexOf .ants_fade_tunnel_pheromone
        < nest_simulation_schedule.indexOf .ants_fade_chamber_pheromone
      ∧ nest_simulation_schedule.indexOf .ants_chamber_pheromone_act
        < nest_simulation_schedule.indexOf .ants_walk
      ∧ nest_simulation_schedule.indexOf .ants_walk
        < nest_simulation_schedule.indexOf .ants_dig
      ∧ nest_simulation_schedule.indexOf .ants_dig
        < nest_simulation_schedule.indexOf .ants_drop
      ∧ nest_simulation_schedule.indexOf .ants_drop
        < nest_simulation_schedule.indexOf .ants_initiative)
    ∧ (fixed_update_schedule.indexOf .gravity_elements
        < fixed_update_schedule.indexOf .ants_walk
      ∧ fixed_update_schedule.indexOf .ants_walk
        < fixed_update_schedule.indexOf .ants_hunger
      ∧ fixed_update_schedule.indexOf .ants_hunger
        < fixed_update_schedule.indexOf .ants_birthing
      ∧ fixed_update_schedule.indexOf .ants_birthing
        < fixed_update_schedule.indexOf .ants_act
      ∧ fixed_update_schedule.indexOf .ants_act
        < fixed_update_schedule.indexOf .ants_initiative) := by
  decide

/-- The per-ant body of ants_dig (crater), for the single-ant pipeline;
the list-level ants_dig above exhibits the cross-ant early return. -/
def ant_dig_act (g : Grid) (pick : Nat) (a : Ant) : Ant × List DigCmd :=
  if !a.initiative.can_act then (a, [])
  else if a.inventory != none then (a, [])
  else if (dig_food_positions g a).isEmpty then (a, [])
  else
    ({ a with orientation := a.orientation.turn_around },
     [⟨a.id, (dig_food_positions g a).getD
        (pick % (dig_food_positions g a).length) a.position⟩])

/-- Modelled from the spec: application of a deferred dig command (the
commands module is not among the provided sources). Spec 4.3: a dig on
success detaches the element, inserts it into the inventory of the acting
agent and consumes one action-initiative. -/
def apply_dig_command (g : Grid) (a : Ant) (c : DigCmd) : Ant :=
  if a.id == c.antId then
    { a with inventory := some (g.elementAt c.digPosition),
             initiative := a.initiative.consume_action }
  else a

/-- Drain the deferred dig commands of the tick at the barrier point. -/
def apply_dig_commands (g : Grid) (a : Ant) (cs : List DigCmd) : Ant :=
  cs.foldl (apply_dig_command g) a

/-- Modelled from the spec: ants_initiative (source file not provided)
resets the initiative only after the full action-resolution pipeline of
the tick has run. -/
def ants_initiative (a : Ant) : Ant :=
  { a with initiative := ⟨true, true⟩ }

/-- One tick of the per-ant action pipeline in the schedule order of
NestSimulationPlugin: chamber pheromone act, then walk, then dig, then the
deferred-command barrier, then the initiative reset. Returns the ant after
the tick, the dig commands issued for it, and the movement units consumed. -/
def tick_pipeline (g : Grid) (rng : WalkRng) (pick : Nat) (a : Ant) :
    Ant × List DigCmd × Nat :=
  (ants_initiative
      (apply_dig_commands g
        (ant_dig_act g pick (ants_walk g rng (ants_chamber_pheromone_act g a).1).1).1
        ((ants_chamber_pheromone_act g a).2
          ++ (ant_dig_act g pick (ants_walk g rng (ants_chamber_pheromone_act g a).1).1).2)),
   (ants_chamber_pheromone_act g a).2
     ++ (ant_dig_act g pick (ants_walk g rng (ants_chamber_pheromone_act g a).1).1).2,
   (ants_walk g rng (ants_chamber_pheromone_act g a).1).2)

/-- Walking never touches the action budget: only movement is consumed. -/
theorem ants_walk_preserves_action (g : Grid) (rng : WalkRng) (b : Ant) :
    (ants_walk g rng b).1.initiative.has_action = b.initiative.has_action := by
  unfold ants_walk
  repeat' split
  all_goals rfl

/-- Walking consumes at most one movement unit per ant per run. -/
theorem ants_walk_moves_le_one (g : Grid) (rng : WalkRng) (b : Ant) :
    (ants_walk g rng b).2 ≤ 1 := by
  unfold ants_walk
  repeat' split
  all_goals simp

/-- The chamber act either leaves the ant untouched with no command, or
issues exactly one command and leaves the action budget spent. -/
theorem chamber_act_cases (g : Grid) (b : Ant) :
    ants_chamber_pheromone_act g b = (b, [])
    ∨ ((ants_chamber_pheromone_act g b).2.length = 1
        ∧ (ants_chamber_pheromone_act g b).1.initiative.has_action = false) := by
  unfold ants_chamber_pheromone_act
  repeat' split
  all_goals first
  | (left; rfl)
  | (right; exact ⟨rfl, rfl⟩)

/-- The dig system skips any ant whose action budget is already spent. -/
theorem ant_dig_act_skip_of_no_action (g : Grid) (pick : Nat) (b : Ant)
    (h : b.initiative.has_action = false) : ant_dig_act g pick b = (b, []) := by
  simp [ant_dig_act, Initiative.can_act, h]

/-- The dig system issues at most one command per ant per run. -/
theorem ant_dig_act_cmds_le_one (g : Grid) (pick : Nat) (b : Ant) :
    (ant_dig_act g pick b).2.length ≤ 1 := by
  unfold ant_dig_act
  repeat' split
  all_goals simp

/-- C4: over one tick of the pipeline an agent consumes at most one unit
of move-initiative and performs at most one state-changing dig, because
every behavior system is gated by can_move or can_act, the chamber act
consumes the action before the dig system runs, and in the schedule the
initiative reset comes only after all of them. -/
theorem c4_one_move_one_action_per_tick (g : Grid) (rng : WalkRng) (pick : Nat) (a : Ant) :
    (tick_pipeline g rng pick a).2.1.length ≤ 1
    ∧ (tick_pipeline g rng pick a).2.2 ≤ 1
    ∧ nest_simulation_schedule.indexOf .ants_chamber_pheromone_act
        < nest_simulation_schedule.indexOf .ants_initiative
    ∧ nest_simulation_schedule.indexOf .ants_walk
        < nest_simulation_schedule.indexOf .ants_initiative
    ∧ nest_simulation_schedule.indexOf .ants_dig
        < nest_simulation_schedule.indexOf .ants_initiative := by
  refine ⟨?_, ?_, by decide, by decide, by decide⟩
  · simp only [tick_pipeline]
    rcases chamber_act_cases g a with h | ⟨h1, h2⟩
    · rw [h]
      simpa using ant_dig_act_cmds_le_one g pick (ants_walk g rng a).1
    · have hw : (ants_walk g rng (ants_chamber_pheromone_act g a).1).1.initiative.has_action
          = false := by
        rw [ants_walk_preserves_action, h2]
      rw [ant_dig_act_skip_of_no_action g pick _ hw]
      simp [h1]
  · simp only [tick_pipeline]
    exact ants_walk_moves_le_one g rng (ants_chamber_pheromone_act g a).1

/-- The element store of the nest with entity lifecycle: none marks a cell
whose element entity has been despawned. -/
structure DeathWorld where
  elementAt : Position → Option Element

/-- Modelled from the spec: application of the deferred drop command (the
commands module is not among the provided sources). Spec 4.1: dropping
removes the item from the inventory and places it into a target cell that
must currently hold Air; dropping onto a non-Air cell fails and the item
is retained. -/
def apply_drop_command (w : DeathWorld) (a : Ant) (p : Position) : DeathWorld × Ant :=
  match a.inventory with
  | some element =>
    if w.elementAt p = some Element.air then
      (⟨fun q => if q = p then some element else w.elementAt q⟩,
       { a with inventory := none })
    else (w, a)
  | none => (w, a)

/-- on_ants_add_dead from src/src/ant/death.rs for one newly Dead ant:
when the inventory is non-empty, look up the element entity occupying the
cell of the ant; if that cell holds Air, issue a drop command there,
otherwise despawn that occupying element entity (the element of the cell,
not the carried element) and leave the inventory untouched. -/
def on_ants_add_dead (w : DeathWorld) (a : Ant) : DeathWorld × Ant :=
  if a.inventory != none then
    if w.elementAt a.position = some Element.air then
      apply_drop_command w a a.position
    else
      (⟨fun q => if q = a.position then none else w.elementAt q⟩, a)
  else (w, a)

/-- The death world: Sand at (2, 2), Air everywhere else. -/
def c8World : DeathWorld :=
  ⟨fun p => if p = ⟨2, 2⟩ then some Element.sand else some Element.air⟩

/-- A newly Dead ant at the Sand cell (2, 2), carrying Food. -/
def c8Ant : Ant :=
  { id := 3, position := ⟨2, 2⟩, orientation := .east, role := .worker,
    inventory := some Element.food, initiative := ⟨false, false⟩,
    nesting := none, chambering := none }

/-- C8 evaluation at the failing input: when a newly Dead carrying ant
occupies a non-Air cell, death handling despawns the element occupying the
cell (the Sand disappears) and leaves the carried Food in the inventory,
so the inventory is NOT empty after death handling; only when the cell of
the ant holds Air is the carried element dropped and the inventory
emptied. -/
theorem c8_death_disposal_eval :
    (on_ants_add_dead c8World c8Ant).2.inventory = some Element.food
    ∧ (on_ants_add_dead c8World c8Ant).1.elementAt ⟨2, 2⟩ = none
    ∧ (on_ants_add_dead c8World { c8Ant with position := ⟨0, 0⟩ }).2.inventory = none
    ∧ (on_ants_add_dead c8World
        { c8Ant with position := ⟨0, 0⟩ }).1.elementAt ⟨0, 0⟩ = some Element.food := by
  decide

/-- SECONDS_PER_DAY from src/src/time.rs. -/
def SECONDS_PER_DAY : Int := 86400

/-- DEFAULT_TICK_RATE from src/src/time.rs: 10.0 / 60.0, used as the
fixed-time period in seconds when normal play resumes. -/
def DEFAULT_TICK_RATE : ℚ := 10 / 60

/-- FAST_FORWARD_TICK_RATE from src/src/time.rs: 0.001 / 60.0, the far
shorter unit tick interval used while fast-forwarding. -/
def FAST_FORWARD_TICK_RATE : ℚ := (1 / 1000) / 60

/-- setup_fast_forward_time from src/src/time.rs: the away seconds fed to
the fixed-time accumulator on load; zero when no save exists, otherwise
the away time capped at one day (the comment of the source: only one day
of time is allowed to be fast-forwarded; skipping more loses simulation). -/
def setup_fast_forward_time (lastSaveTime nowTime : Int) : Int :=
  if lastSaveTime = 0 then 0 else min (nowTime - lastSaveTime) SECONDS_PER_DAY

/-- pending_ticks of play_time from src/src/time.rs:
(60.0 * DEFAULT_TICK_RATE) * accumulated seconds, truncated to an integer:
the number of back-to-back ticks run during fast-forward. -/
def pending_ticks_for (accumulatedSeconds : Int) : Int :=
  ⌊(60 : ℚ) * DEFAULT_TICK_RATE * (accumulatedSeconds : ℚ)⌋

/-- Modelled from the spec: the fixed-timestep driver that invokes the
tick schedule is the external scheduler; at the default cadence it runs
one tick per elapsed DEFAULT_TICK_RATE seconds, so real-time play over s
seconds runs floor(s / DEFAULT_TICK_RATE) ticks. -/
def realtime_ticks_for (awaySeconds : Int) : Int :=
  ⌊(awaySeconds : ℚ) / DEFAULT_TICK_RATE⌋

/-- Ticks are numbered consecutively; running n ticks from tick t yields
this ordered sequence, whatever the wall-clock cadence. -/
def tick_sequence (t : Nat) (n : Nat) : List Nat :=
  (List.range n).map (fun k => t + 1 + k)

/-- The pending-tick budget evaluates to 10 ticks per away second. -/
theorem pending_ticks_eq (s : Int) : pending_ticks_for s = 10 * s := by
  unfold pending_ticks_for DEFAULT_TICK_RATE
  have h : (60 : ℚ) * (10 / 60) * (s : ℚ) = ((10 * s : ℤ) : ℚ) := by
    push_cast
    ring
  rw [h, Int.floor_intCast]

/-- Real-time play at the default period runs 6 ticks per second. -/
theorem realtime_ticks_eq (s : Int) : realtime_ticks_for s = 6 * s := by
  unfold realtime_ticks_for DEFAULT_TICK_RATE
  have h : (s : ℚ) / (10 / 60) = ((6 * s : ℤ) : ℚ) := by
    push_cast
    ring
  rw [h, Int.floor_intCast]

/-- C9 counterexample: for a user away two days, the fast-forwarded away
time is capped at one day, and the fast-forward tick budget falls short of
the ticks real-time play would have run over the full away time, so ticks
are lost; moreover even for one away hour the fast-forward budget (10
ticks per second) is not the real-time count (6 ticks per second). -/
theorem c9_ticks_not_preserved :
    setup_fast_forward_time 1000 173800 = 86400
    ∧ pending_ticks_for (setup_fast_forward_time 1000 173800) < realtime_ticks_for 172800
    ∧ realtime_ticks_for (setup_fast_forward_time 1000 173800) < realtime_ticks_for 172800
    ∧ pending_ticks_for 3600 ≠ realtime_ticks_for 3600 := by
  have hs : setup_fast_forward_time 1000 173800 = 86400 := by
    unfold setup_fast_forward_time SECONDS_PER_DAY
    decide
  refine ⟨hs, ?_, ?_, ?_⟩
  · rw [hs, pending_ticks_eq, realtime_ticks_eq]
    norm_num
  · rw [hs, realtime_ticks_eq, realtime_ticks_eq]
    norm_num
  · rw [pending_ticks_eq, realtime_ticks_eq]
    norm_num

/-- C9 (amended): fast-forward catch-up runs its ticks back-to-back in
strictly increasing order at a far shorter unit tick interval, but it does
not reproduce the real-time tick count: the away time is capped at one day
(86400 s) and away time beyond the cap is discarded, and the pending tick
budget is 60 * DEFAULT_TICK_RATE = 10 ticks per away second while
real-time play at the default period runs 6 ticks per second. -/
theorem c9_fast_forward_capped (lastSaveTime nowTime : Int)
    (h0 : lastSaveTime ≠ 0) :
    setup_fast_forward_time lastSaveTime nowTime
        = min (nowTime - lastSaveTime) SECONDS_PER_DAY
    ∧ setup_fast_forward_time lastSaveTime nowTime ≤ nowTime - lastSaveTime
    ∧ (nowTime - lastSaveTime ≤ SECONDS_PER_DAY →
        setup_fast_forward_time lastSaveTime nowTime = nowTime - lastSaveTime)
    ∧ (SECONDS_PER_DAY < nowTime - lastSaveTime →
        setup_fast_forward_time lastSaveTime nowTime < nowTime - lastSaveTime)
    ∧ pending_ticks_for (setup_fast_forward_time lastSaveTime nowTime)
        = 10 * setup_fast_forward_time lastSaveTime nowTime
    ∧ realtime_ticks_for (nowTime - lastSaveTime) = 6 * (nowTime - lastSaveTime)
    ∧ (∀ t n : Nat, (tick_sequence t n).Pairwise (· < ·))
    ∧ FAST_FORWARD_TICK_RATE < DEFAULT_TICK_RATE := by
  have hsetup : setup_fast_forward_time lastSaveTime nowTime
      = min (nowTime - lastSaveTime) SECONDS_PER_DAY := by
    unfold setup_fast_forward_time
    rw [if_neg h0]
  refine ⟨hsetup, ?_, ?_, ?_, pending_ticks_eq _, realtime_ticks_eq _, ?_, ?_⟩
  · rw [hsetup]
    exact min_le_left _ _
  · intro h
    rw [hsetup]
    exact min_eq_left h
  · intro h
    rw [hsetup, min_eq_right h.le]
    exact h
  · intro t n
    unfold tick_sequence
    refine List.pairwise_map.mpr ?_
    exact (List.pairwise_lt_range n).imp (by omega)
  · unfold FAST_FORWARD_TICK_RATE DEFAULT_TICK_RATE
    norm_num

/-- Witness for c9_fast_forward_capped: one away hour is below the cap, so
the full hour is fast-forwarded, with a budget of 10 ticks per second. -/
theorem c9_fast_forward_capped_witness :
    setup_fast_forward_time 1000 4600 = 4600 - 1000
    ∧ pending_ticks_for (setup_fast_forward_time 1000 4600)
        = 10 * setup_fast_forward_time 1000 4600 :=
  ⟨(c9_fast_forward_capped 1000 4600 (by decide)).2.2.1 (by decide),
   (c9_fast_forward_capped 1000 4600 (by decide)).2.2.2.2.1⟩

end Symbiants
